import Mathlib

/-!
Shallow embedding of the concurrent load-generation and metrics-aggregation
harness of `read_trend_simulator.py`.

Timestamps are modelled as rationals (the code uses `datetime` values, which
form a linear order and support subtraction of a width in seconds); latencies
and durations are rationals as well.  The unbounded `deque`s of the source are
modelled as Lean lists, appended on the right like `deque.append`.
-/

namespace ReadTrend

/-! ### ConcurrencyTracker (`execute_query_concurrent`, lines 238-275)

`execute_query_concurrent` increments the shared `active_queries` counter
under `concurrency_lock` and appends the post-increment value to
`concurrency_values`; in its `finally` block it decrements the counter (always,
even when the query errored) and appends the post-decrement value.  An
interleaved execution of several such calls is a sequence of increment and
decrement events in which each call's increment precedes its matching
decrement; timestamps are omitted because the claims only concern the appended
counter values. -/

/-- One mutation event on the shared `active_queries` counter: the increment
at the top of `execute_query_concurrent` or the decrement in its `finally`. -/
inductive CEvent
  | inc
  | dec
deriving DecidableEq

/-- The tracker's shared state: the `active_queries` counter and the
`concurrency_values` deque of post-mutation values. -/
structure TrackerState where
  active : Int
  trace : List Int
deriving DecidableEq

/-- One event applied to the tracker state: mutate the counter under the lock
and append the post-mutation value, exactly as lines 243-246 and 272-275 do. -/
def trackerStep (st : TrackerState) (e : CEvent) : TrackerState :=
  match e with
  | .inc => { active := st.active + 1, trace := st.trace ++ [st.active + 1] }
  | .dec => { active := st.active - 1, trace := st.trace ++ [st.active - 1] }

/-- Run a whole interleaved event sequence from the initial state
(`active_queries = 0`, empty trace). -/
def trackerRun (evs : List CEvent) : TrackerState :=
  evs.foldl trackerStep { active := 0, trace := [] }

/-- Number of increments in an event sequence. -/
def incCount : List CEvent → Nat
  | [] => 0
  | .inc :: t => incCount t + 1
  | .dec :: t => incCount t

/-- Number of decrements in an event sequence. -/
def decCount : List CEvent → Nat
  | [] => 0
  | .inc :: t => decCount t
  | .dec :: t => decCount t + 1

/-- Checks that, starting from counter value `c`, the running counter never
drops below zero.  `nonnegFrom 0 evs = true` is exactly the condition that the
sequence is an interleaving of increment/decrement pairs in which every
decrement is preceded by its matching increment (no prefix has more decrements
than increments). -/
def nonnegFrom : Int → List CEvent → Bool
  | _, [] => true
  | c, .inc :: t => nonnegFrom (c + 1) t
  | c, .dec :: t => decide (0 ≤ c - 1) && nonnegFrom (c - 1) t

/-! ### MetricsRegistry state (module-level deques, lines 33-53) -/

/-- The shared metrics state of the module: the global deques `timestamps`,
`latencies`, `errors`, `query_timestamps`, `throughput_timestamps`,
`throughput_values`, `concurrency_timestamps`, `concurrency_values` and the
`query_types_executed` counters. -/
structure RegistryState where
  timestamps : List ℚ
  latencies : List (Option ℚ)
  errors : List (ℚ × String)
  query_timestamps : List ℚ
  throughput_timestamps : List ℚ
  throughput_values : List ℚ
  concurrency_timestamps : List ℚ
  concurrency_values : List Int
  qt_simple : Nat
  qt_spatial : Nat
  qt_complex : Nat

/-- `calculate_throughput` (lines 277-285): count the recorded
`query_timestamps` strictly newer than `now - throughput_window`, divide by the
window width when the count is nonzero (Python's `if q_in_window` guard),
append `(now, qps)` to the throughput trace, and return the rate. -/
def calculate_throughput (now window : ℚ) (st : RegistryState) :
    RegistryState × ℚ :=
  let q_in_window := st.query_timestamps.countP (fun t => decide (now - window < t))
  let qps : ℚ := if q_in_window ≠ 0 then (q_in_window : ℚ) / window else 0
  ({ st with
      throughput_timestamps := st.throughput_timestamps ++ [now]
      throughput_values := st.throughput_values ++ [qps] }, qps)

/-- The locked body of `execute_query_concurrent` that records one finished
query (lines 256-267): when the warmup flag is set nothing is appended;
otherwise the completion time and the query-start time are appended, then on
success the latency is appended and `calculate_throughput` is called (which
appends a throughput sample), while on error `None` is appended to `latencies`
and the error is appended to `errors`. -/
def record_sample (in_warmup : Bool) (now query_start : ℚ) (latency : Option ℚ)
    (err : String) (window : ℚ) (st : RegistryState) : RegistryState :=
  if in_warmup then st
  else
    let st1 := { st with
      timestamps := st.timestamps ++ [now]
      query_timestamps := st.query_timestamps ++ [query_start] }
    match latency with
    | some l =>
        (calculate_throughput now window
          { st1 with latencies := st1.latencies ++ [some l] }).1
    | none =>
        { st1 with
            latencies := st1.latencies ++ [none]
            errors := st1.errors ++ [(now, err)] }

/-- The warmup-clearing block of `query_thread` (lines 388-397): every deque is
cleared and the query-type counters are reset, regardless of the current
contents. -/
def clear_warmup_data (_st : RegistryState) : RegistryState :=
  { timestamps := []
    latencies := []
    errors := []
    query_timestamps := []
    throughput_timestamps := []
    throughput_values := []
    concurrency_timestamps := []
    concurrency_values := []
    qt_simple := 0
    qt_spatial := 0
    qt_complex := 0 }

/-- The data of one finished query as seen by `record_sample`. -/
structure SampleEvent where
  now : ℚ
  query_start : ℚ
  latency : Option ℚ
  err : String

/-- Recording a sequence of finished queries while the `in_warmup` flag is
set, as the warmup worker pool does. -/
def warmup_phase (window : ℚ) (evs : List SampleEvent) (st : RegistryState) :
    RegistryState :=
  evs.foldl (fun s e => record_sample true e.now e.query_start e.latency e.err window s) st

/-! ### Statistics helpers (`statistics`/`numpy` calls of the source) -/

/-- `statistics.mean`: sum divided by length (total function; the source only
calls it on nonempty lists). -/
def mean (xs : List ℚ) : ℚ := xs.sum / (xs.length : ℚ)

/-- Ascending sort, as `numpy`/`statistics` perform internally. -/
def sortedQ (xs : List ℚ) : List ℚ := List.insertionSort (· ≤ ·) xs

/-- `statistics.median`: middle element of the sorted list, or the average of
the two middle elements for even length. -/
def median (xs : List ℚ) : ℚ :=
  let s := sortedQ xs
  let n := s.length
  if n = 0 then 0
  else if n % 2 = 1 then s.getD (n / 2) 0
  else (s.getD (n / 2 - 1) 0 + s.getD (n / 2) 0) / 2

/-- Linear interpolation between order statistics of an already-sorted list at
fractional rank `r = p * (n-1) / 100`, as `np.percentile`'s default method
does after sorting. -/
def percOfSorted (p : ℚ) (s : List ℚ) : ℚ :=
  let n := s.length
  if n = 0 then 0
  else
    let r : ℚ := p * ((n : ℚ) - 1) / 100
    let lo : Nat := (Int.floor r).toNat
    let hi : Nat := (Int.ceil r).toNat
    s.getD lo 0 + (r - ((Int.floor r : Int) : ℚ)) * (s.getD hi 0 - s.getD lo 0)

/-- `np.percentile(xs, p)` with the default linear-interpolation method: sort,
then interpolate between the neighbouring order statistics. -/
def percentile (p : ℚ) (xs : List ℚ) : ℚ :=
  percOfSorted p (sortedQ xs)

/-- Sample variance, the square of `statistics.stdev` (total function; the
source guards each `statistics.stdev` call with a length check). -/
def sampleVariance (xs : List ℚ) : ℚ :=
  ((xs.map (fun x => (x - mean xs) ^ 2)).sum) / ((xs.length : ℚ) - 1)

/-- `statistics.stdev(xs) if len(xs) > 1 else 0`, the guarded pattern used at
every `stdev` call site of the source. -/
noncomputable def stdev (xs : List ℚ) : ℝ :=
  if 1 < xs.length then Real.sqrt ((sampleVariance xs : ℚ) : ℝ) else 0

/-- Minimum of a nonempty list (`min` builtin); 0 on the empty list, which the
source never passes. -/
def listMin : List ℚ → ℚ
  | [] => 0
  | h :: t => t.foldl min h

/-- Maximum of a nonempty list (`max` builtin); 0 on the empty list. -/
def listMax : List ℚ → ℚ
  | [] => 0
  | h :: t => t.foldl max h

/-! ### Per-run statistics (`query_thread`, lines 482-500) -/

/-- The `run_results` dict appended to `benchmark_results`. -/
structure RunResult where
  run : Nat
  concurrency : Nat
  avg_latency_ms : ℚ
  p50_latency_ms : ℚ
  p95_latency_ms : ℚ
  p99_latency_ms : ℚ
  min_latency_ms : ℚ
  max_latency_ms : ℚ
  stdev_latency_ms : ℝ
  throughput_qps : ℚ
  error_count : Nat
  qd_simple : Nat
  qd_spatial : Nat
  qd_complex : Nat
  duration : ℚ

/-- The end-of-run statistics block (lines 482-500): filter the successful
latencies; when none survive, the `if valid_latencies:` guard fails and no
`RunResult` is produced at all; otherwise the aggregate is built, with
`throughput_qps = len(valid_latencies) / run_duration` (successes only,
configured duration as denominator) and `error_count = len(errors)`. -/
noncomputable def collect_run_stats (current_run concurrency : Nat)
    (latencies : List (Option ℚ)) (errors : List (ℚ × String))
    (qd : Nat × Nat × Nat) (run_duration : ℚ) : Option RunResult :=
  let valid := latencies.filterMap id
  if valid = [] then none
  else some {
    run := current_run
    concurrency := concurrency
    avg_latency_ms := mean valid
    p50_latency_ms := median valid
    p95_latency_ms := percentile 95 valid
    p99_latency_ms := percentile 99 valid
    min_latency_ms := listMin valid
    max_latency_ms := listMax valid
    stdev_latency_ms := stdev valid
    throughput_qps := (valid.length : ℚ) / run_duration
    error_count := errors.length
    qd_simple := qd.1
    qd_spatial := qd.2.1
    qd_complex := qd.2.2
    duration := run_duration }

/-! ### Cross-run summary (`calculate_summary_metrics`, lines 934-981, and the
`save_benchmark_results` gate, line 922) -/

/-- One mean/median/min/max/stdev block of the summary. -/
structure StatBlock where
  mean : ℚ
  median : ℚ
  min : ℚ
  max : ℚ
  stdev : ℝ

/-- Mean/stdev pair of per-run per-query-type throughputs. -/
structure QtypeTput where
  mean : ℚ
  stdev : ℝ

/-- The dict returned by `calculate_summary_metrics`. -/
structure SummaryMetrics where
  throughput_summary : StatBlock
  tput_cv_percent : ℝ
  latency_summary : StatBlock
  p95_latency_summary : StatBlock
  qtype_simple : QtypeTput
  qtype_spatial : QtypeTput
  qtype_complex : QtypeTput

/-- `calculate_summary_metrics`: extract the per-run average latencies,
throughputs and p95 latencies, and aggregate each with
mean/median/min/max/sample-stdev; the throughput coefficient of variation is
`stdev/mean*100` when more than one run exists, else 0; per-query-type
throughput is the mean and stdev over runs of `count / duration`. -/
noncomputable def calculate_summary_metrics (results : List RunResult) :
    SummaryMetrics :=
  let all_latencies := results.map (·.avg_latency_ms)
  let all_throughputs := results.map (·.throughput_qps)
  let all_p95 := results.map (·.p95_latency_ms)
  let throughput_cv : ℝ :=
    if 1 < all_throughputs.length then
      stdev all_throughputs / ((mean all_throughputs : ℚ) : ℝ) * 100
    else 0
  let simple_counts := results.map (fun r => (r.qd_simple : ℚ) / r.duration)
  let spatial_counts := results.map (fun r => (r.qd_spatial : ℚ) / r.duration)
  let complex_counts := results.map (fun r => (r.qd_complex : ℚ) / r.duration)
  { throughput_summary :=
      { mean := mean all_throughputs
        median := median all_throughputs
        min := listMin all_throughputs
        max := listMax all_throughputs
        stdev := stdev all_throughputs }
    tput_cv_percent := throughput_cv
    latency_summary :=
      { mean := mean all_latencies
        median := median all_latencies
        min := listMin all_latencies
        max := listMax all_latencies
        stdev := stdev all_latencies }
    p95_latency_summary :=
      { mean := mean all_p95
        median := median all_p95
        min := listMin all_p95
        max := listMax all_p95
        stdev := stdev all_p95 }
    qtype_simple := { mean := mean simple_counts, stdev := stdev simple_counts }
    qtype_spatial := { mean := mean spatial_counts, stdev := stdev spatial_counts }
    qtype_complex := { mean := mean complex_counts, stdev := stdev complex_counts } }

/-- The `summary_metrics` field of `save_benchmark_results` (line 922): the
summary is computed only when more than one run result exists, otherwise the
field is the empty dict, modelled as `none`. -/
noncomputable def summary_metrics_field (results : List RunResult) :
    Option SummaryMetrics :=
  if 1 < results.length then some (calculate_summary_metrics results) else none

/-! ### Table setup and process exit (`query_thread` lines 334-346, `main`
lines 1114-1137) -/

/-- The table-setup phase of `query_thread` (lines 334-341): the existence
check runs first; on failure, the table is created only when `--create-table`
was passed, and `table_exists` then reflects the initializer's outcome. -/
def table_setup (check_ok create_flag init_ok : Bool) : Bool :=
  if check_ok then true
  else if create_flag then init_ok
  else false

/-- Observable outcome of `query_thread`'s control flow. -/
structure QueryThreadOutcome where
  table_ok : Bool
  entered_measuring : Bool
  results : List RunResult
  running : Bool

/-- `query_thread` after the setup phase (lines 343-346 and the run loop):
when no table is available it prints, sets `running = False` and returns
before the warmup and the measuring loop, leaving `benchmark_results` empty;
otherwise the measuring loop runs and produces whatever run results the loop
computes (passed here as `loop_results`). -/
def query_thread_outcome (check_ok create_flag init_ok : Bool)
    (loop_results : List RunResult) : QueryThreadOutcome :=
  if table_setup check_ok create_flag init_ok then
    { table_ok := true, entered_measuring := true, results := loop_results,
      running := true }
  else
    { table_ok := false, entered_measuring := false, results := [],
      running := false }

/-- Exit status of the process.  Modelled from `main` (lines 1114-1137): no
code path in the file calls `sys.exit` or re-raises — the table-failure path
of `query_thread` only sets `running = False` and returns, and `main`'s
`finally` block saves results, prints `Done.` and returns normally — so the
interpreter exits with status 0 on every path, in particular when table setup
failed. -/
def main_exit_code (_check_ok _create_flag _init_ok : Bool) : Nat := 0

/-- The dispatcher's inter-task sleep during a measured run (line 469):
`max(0.01, args.interval / max(1, concurrency / 2))`, where `concurrency / 2`
is Python float division. -/
def sleep_time (interval : ℚ) (concurrency : Nat) : ℚ :=
  max (1 / 100) (interval / max 1 ((concurrency : ℚ) / 2))

/-- A small concrete registry used to instantiate the window theorems. -/
def sampleRegistry : RegistryState :=
  { timestamps := []
    latencies := []
    errors := []
    query_timestamps := [1, 2, 3]
    throughput_timestamps := []
    throughput_values := []
    concurrency_timestamps := []
    concurrency_values := []
    qt_simple := 0
    qt_spatial := 0
    qt_complex := 0 }

/-- A concrete registry for a two-query run containing one error, used to
instantiate the per-run throughput theorem. -/
def errorRegistry : RegistryState :=
  { timestamps := [1, 2]
    latencies := [some 5, none]
    errors := [(2, "x")]
    query_timestamps := [1, 2]
    throughput_timestamps := []
    throughput_values := []
    concurrency_timestamps := []
    concurrency_values := []
    qt_simple := 2
    qt_spatial := 0
    qt_complex := 0 }

/-- A concrete completed run with per-run throughput 10 qps. -/
noncomputable def runA : RunResult :=
  { run := 1
    concurrency := 4
    avg_latency_ms := 50
    p50_latency_ms := 50
    p95_latency_ms := 60
    p99_latency_ms := 70
    min_latency_ms := 40
    max_latency_ms := 80
    stdev_latency_ms := 0
    throughput_qps := 10
    error_count := 0
    qd_simple := 3000
    qd_spatial := 0
    qd_complex := 0
    duration := 300 }

/-- A concrete completed run with per-run throughput 20 qps. -/
noncomputable def runB : RunResult :=
  { run := 2
    concurrency := 4
    avg_latency_ms := 40
    p50_latency_ms := 40
    p95_latency_ms := 50
    p99_latency_ms := 60
    min_latency_ms := 30
    max_latency_ms := 70
    stdev_latency_ms := 0
    throughput_qps := 20
    error_count := 0
    qd_simple := 6000
    qd_spatial := 0
    qd_complex := 0
    duration := 300 }

/-! ### Theorems -/

lemma foldl_trackerStep_active (evs : List CEvent) :
    ∀ st : TrackerState,
      (evs.foldl trackerStep st).active =
        st.active + (incCount evs : Int) - (decCount evs : Int) := by
  induction evs with
  | nil => intro st; simp [incCount, decCount]
  | cons e t ih =>
      intro st
      cases e with
      | inc =>
          simp only [List.foldl_cons, trackerStep, incCount, decCount]
          rw [ih]
          push_cast
          ring
      | dec =>
          simp only [List.foldl_cons, trackerStep, incCount, decCount]
          rw [ih]
          push_cast
          ring

lemma foldl_trackerStep_trace_nonneg (evs : List CEvent) :
    ∀ st : TrackerState, 0 ≤ st.active → nonnegFrom st.active evs = true →
      (∀ v ∈ st.trace, 0 ≤ v) →
      ∀ v ∈ (evs.foldl trackerStep st).trace, 0 ≤ v := by
  induction evs with
  | nil => intro st _ _ htr; simpa using htr
  | cons e t ih =>
      intro st hst hok htr
      cases e with
      | inc =>
          simp only [List.foldl_cons, trackerStep]
          refine ih _ (by simp; omega) ?_ ?_
          · simpa [nonnegFrom] using hok
          · intro v hv
            rcases List.mem_append.mp hv with h | h
            · exact htr v h
            · simp only [List.mem_singleton] at h
              omega
      | dec =>
          simp only [nonnegFrom, Bool.and_eq_true, decide_eq_true_eq] at hok
          obtain ⟨h1, h2⟩ := hok
          simp only [List.foldl_cons, trackerStep]
          refine ih _ (by simp; omega) h2 ?_
          intro v hv
          rcases List.mem_append.mp hv with h | h
          · exact htr v h
          · simp only [List.mem_singleton] at h
            omega

/-- Claim C1: for every interleaved sequence of increment/decrement events
produced by `execute_query_concurrent` calls (each decrement preceded by its
matching increment, which is what `nonnegFrom 0 evs = true` states; the
decrement runs in a `finally` block, so it happens even on error), every value
appended to the concurrency trace is nonnegative, and once the number of
decrements equals the number of increments the counter's final value is
exactly 0. -/
theorem c1_tracker_trace_nonneg (evs : List CEvent)
    (h : nonnegFrom 0 evs = true) :
    (∀ v ∈ (trackerRun evs).trace, 0 ≤ v) ∧
    (incCount evs = decCount evs → (trackerRun evs).active = 0) := by
  constructor
  · exact foldl_trackerStep_trace_nonneg evs ⟨0, []⟩ le_rfl h (by simp)
  · intro heq
    have hact := foldl_trackerStep_active evs ⟨0, []⟩
    simp only [trackerRun] at hact ⊢
    omega

/-- Concrete instantiation of `c1_tracker_trace_nonneg` on the interleaving
inc, inc, dec, dec of two overlapping `execute_query_concurrent` calls. -/
theorem c1_tracker_trace_nonneg_witness :
    nonnegFrom 0 [CEvent.inc, CEvent.inc, CEvent.dec, CEvent.dec] = true ∧
    ((∀ v ∈ (trackerRun [CEvent.inc, CEvent.inc, CEvent.dec, CEvent.dec]).trace, 0 ≤ v) ∧
     (incCount [CEvent.inc, CEvent.inc, CEvent.dec, CEvent.dec] =
        decCount [CEvent.inc, CEvent.inc, CEvent.dec, CEvent.dec] →
      (trackerRun [CEvent.inc, CEvent.inc, CEvent.dec, CEvent.dec]).active = 0)) :=
  ⟨by decide, c1_tracker_trace_nonneg _ (by decide)⟩

lemma record_sample_warmup_id (now qs : ℚ) (lat : Option ℚ) (err : String)
    (window : ℚ) (st : RegistryState) :
    record_sample true now qs lat err window st = st := rfl

lemma warmup_phase_id (window : ℚ) (evs : List SampleEvent) (st : RegistryState) :
    warmup_phase window evs st = st := by
  induction evs generalizing st with
  | nil => rfl
  | cons e t ih =>
      show warmup_phase window t (record_sample true e.now e.query_start e.latency e.err window st) = st
      rw [record_sample_warmup_id]
      exact ih st

/-- Claim C4: while the warmup flag is set, `record_sample` (the locked body of
`execute_query_concurrent`) appends nothing — a whole warmup phase leaves the
metrics state unchanged — and the clearing block that runs before the first
measured run leaves every deque empty and every query-type counter zero, so no
warmup sample can reach any `RunResult`. -/
theorem c4_warmup_discarded (window : ℚ) (evs : List SampleEvent)
    (st : RegistryState) :
    warmup_phase window evs st = st ∧
    (clear_warmup_data (warmup_phase window evs st)).timestamps = [] ∧
    (clear_warmup_data (warmup_phase window evs st)).latencies = [] ∧
    (clear_warmup_data (warmup_phase window evs st)).errors = [] ∧
    (clear_warmup_data (warmup_phase window evs st)).query_timestamps = [] ∧
    (clear_warmup_data (warmup_phase window evs st)).throughput_timestamps = [] ∧
    (clear_warmup_data (warmup_phase window evs st)).throughput_values = [] ∧
    (clear_warmup_data (warmup_phase window evs st)).concurrency_timestamps = [] ∧
    (clear_warmup_data (warmup_phase window evs st)).concurrency_values = [] ∧
    (clear_warmup_data (warmup_phase window evs st)).qt_simple = 0 ∧
    (clear_warmup_data (warmup_phase window evs st)).qt_spatial = 0 ∧
    (clear_warmup_data (warmup_phase window evs st)).qt_complex = 0 :=
  ⟨warmup_phase_id window evs st, rfl, rfl, rfl, rfl, rfl, rfl, rfl, rfl, rfl,
    rfl, rfl⟩

/-- Claim C10: every call to `calculate_throughput` appends exactly one
timestamp and one rate value (the returned qps) to the throughput trace, and
modifies no other field of the registry state — reading the sliding-window
rate, including purely for display, mutates the throughput history. -/
theorem c10_calculate_throughput_frame (st : RegistryState) (now window : ℚ) :
    (calculate_throughput now window st).1.throughput_timestamps =
        st.throughput_timestamps ++ [now] ∧
    (calculate_throughput now window st).1.throughput_values =
        st.throughput_values ++ [(calculate_throughput now window st).2] ∧
    (calculate_throughput now window st).1.timestamps = st.timestamps ∧
    (calculate_throughput now window st).1.latencies = st.latencies ∧
    (calculate_throughput now window st).1.errors = st.errors ∧
    (calculate_throughput now window st).1.query_timestamps = st.query_timestamps ∧
    (calculate_throughput now window st).1.concurrency_timestamps =
        st.concurrency_timestamps ∧
    (calculate_throughput now window st).1.concurrency_values =
        st.concurrency_values ∧
    (calculate_throughput now window st).1.qt_simple = st.qt_simple ∧
    (calculate_throughput now window st).1.qt_spatial = st.qt_spatial ∧
    (calculate_throughput now window st).1.qt_complex = st.qt_complex :=
  ⟨rfl, rfl, rfl, rfl, rfl, rfl, rfl, rfl, rfl, rfl, rfl⟩

/-- Claim C2: for a registry whose recorded task-start timestamps all lie in
the past (`t ≤ now`) and a positive window width, the sliding-window rate
returned by `calculate_throughput` equals the number of timestamps in
`(now - window, now]` divided by the window width; samples outside that window
do not affect the result, since only the in-window count enters. -/
theorem c2_throughput_window (st : RegistryState) (now window : ℚ)
    (_hw : 0 < window) (hts : ∀ t ∈ st.query_timestamps, t ≤ now) :
    (calculate_throughput now window st).2 =
      ((st.query_timestamps.countP
          (fun t => decide (now - window < t ∧ t ≤ now)) : ℚ)) / window := by
  have hcong : st.query_timestamps.countP (fun t => decide (now - window < t)) =
      st.query_timestamps.countP (fun t => decide (now - window < t ∧ t ≤ now)) := by
    apply List.countP_congr
    intro t ht
    simp only [decide_eq_true_eq]
    exact (and_iff_left (hts t ht)).symm
  simp only [calculate_throughput]
  rw [hcong]
  by_cases hc :
      List.countP (fun t => decide (now - window < t ∧ t ≤ now)) st.query_timestamps = 0
  · rw [if_neg (not_not_intro hc), hc]
    simp
  · rw [if_pos hc]

/-- Concrete instantiation of `c2_throughput_window`: timestamps 1, 2, 3,
call time 3, window 2. -/
theorem c2_throughput_window_witness :
    ((0 : ℚ) < 2 ∧ ∀ t ∈ sampleRegistry.query_timestamps, t ≤ 3) ∧
    (calculate_throughput 3 2 sampleRegistry).2 =
      ((sampleRegistry.query_timestamps.countP
          (fun t => decide ((3 : ℚ) - 2 < t ∧ t ≤ 3)) : ℚ)) / 2 :=
  ⟨⟨by norm_num, by decide⟩,
    c2_throughput_window sampleRegistry 3 2 (by norm_num) (by decide)⟩

/-- Claim C3 counterexample: a run in which every query execution errored
(latencies `[None, None]`, two recorded errors) produces no `RunResult` at
all — the `if valid_latencies:` guard of `query_thread` fails and nothing is
appended to `benchmark_results` — contradicting the claim that such a run
yields a `RunResult` with `error_count` equal to the task count and
`avg_latency` 0. -/
theorem c3_all_errors_counterexample :
    collect_run_stats 1 4 [none, none] [(0, "boom"), (1, "boom")] (0, 0, 0) 300 =
      none := by
  simp [collect_run_stats]

/-- Claim C3 (amended): for a run in which every query execution returns an
error (every recorded latency is `None`), the statistics block produces no
`RunResult` for that run; the harness does not crash, it simply skips the
append to `benchmark_results`. -/
theorem c3_all_errors_no_run_result (cr cc : Nat) (lats : List (Option ℚ))
    (errs : List (ℚ × String)) (qd : Nat × Nat × Nat) (d : ℚ)
    (h : ∀ x ∈ lats, x = none) :
    collect_run_stats cr cc lats errs qd d = none := by
  have hnil : lats.filterMap id = [] := by
    rw [List.filterMap_eq_nil_iff]
    intro a ha
    simp [h a ha]
  simp [collect_run_stats, hnil]

/-- Concrete instantiation of `c3_all_errors_no_run_result`. -/
theorem c3_all_errors_no_run_result_witness :
    (∀ x ∈ ([none, none] : List (Option ℚ)), x = none) ∧
    collect_run_stats 2 4 [none, none] [(0, "x"), (1, "y")] (0, 0, 0) 300 = none :=
  ⟨by decide, c3_all_errors_no_run_result 2 4 _ _ _ _ (by decide)⟩

/-- Claim C7: during a measured run the dispatcher's inter-task sleep is
`max(0.01, interval / max(1, concurrency / 2))`; for any nonnegative base
interval the sleep never falls below the 0.01 floor and is antitone in the
concurrency level, keeping the aggregate arrival rate roughly independent of
the worker count. -/
theorem c7_sleep_time (interval : ℚ) (c c' : Nat) (hi : 0 ≤ interval)
    (hcc : c ≤ c') :
    1 / 100 ≤ sleep_time interval c ∧
    sleep_time interval c' ≤ sleep_time interval c := by
  refine ⟨le_max_left _ _, ?_⟩
  have hden : (0 : ℚ) < max 1 ((c : ℚ) / 2) := lt_max_of_lt_left one_pos
  have hden' : max 1 ((c : ℚ) / 2) ≤ max 1 ((c' : ℚ) / 2) := by
    apply max_le_max le_rfl
    have hcast : (c : ℚ) ≤ (c' : ℚ) := by exact_mod_cast hcc
    linarith
  have hdiv : interval / max 1 ((c' : ℚ) / 2) ≤ interval / max 1 ((c : ℚ) / 2) := by
    rw [div_eq_mul_inv, div_eq_mul_inv]
    apply mul_le_mul_of_nonneg_left _ hi
    exact inv_anti₀ hden hden'
  exact max_le_max le_rfl hdiv

/-- Concrete instantiation of `c7_sleep_time` at interval 1, concurrency
levels 2 and 8. -/
theorem c7_sleep_time_witness :
    ((0 : ℚ) ≤ 1 ∧ (2 : Nat) ≤ 8) ∧
    (1 / 100 ≤ sleep_time 1 2 ∧ sleep_time 1 8 ≤ sleep_time 1 2) :=
  ⟨⟨by norm_num, by norm_num⟩, c7_sleep_time 1 2 8 (by norm_num) (by norm_num)⟩

/-- Claim C6 counterexample: with the existence check failed and
`--create-table` not passed, `query_thread` indeed never enters the measuring
loop and `benchmark_results` stays empty, but the process exit status is 0 —
no code path calls `sys.exit` — contradicting the claim's non-zero exit
status. -/
theorem c6_setup_failure_counterexample :
    (query_thread_outcome false false false []).entered_measuring = false ∧
    (query_thread_outcome false false false []).results = [] ∧
    main_exit_code false false false = 0 :=
  ⟨rfl, rfl, rfl⟩

/-- Claim C6 (amended): if the table-existence check fails and the table
cannot be created, the harness never enters the measuring phase — no measured
run executes, no `RunResult` is produced, and the query thread stops — but the
process terminates normally with exit status 0, not a non-zero status. -/
theorem c6_setup_failure_no_measuring (check_ok create_flag init_ok : Bool)
    (loop_results : List RunResult)
    (h : table_setup check_ok create_flag init_ok = false) :
    (query_thread_outcome check_ok create_flag init_ok
        loop_results).entered_measuring = false ∧
    (query_thread_outcome check_ok create_flag init_ok loop_results).results = [] ∧
    (query_thread_outcome check_ok create_flag init_ok loop_results).running = false ∧
    main_exit_code check_ok create_flag init_ok = 0 := by
  simp [query_thread_outcome, h, main_exit_code]

/-- Concrete instantiation of `c6_setup_failure_no_measuring`: the check
fails, `--create-table` was passed, and the initializer also fails. -/
theorem c6_setup_failure_no_measuring_witness :
    table_setup false true false = false ∧
    ((query_thread_outcome false true false []).entered_measuring = false ∧
     (query_thread_outcome false true false []).results = [] ∧
     (query_thread_outcome false true false []).running = false ∧
     main_exit_code false true false = 0) :=
  ⟨rfl, c6_setup_failure_no_measuring false true false [] rfl⟩

lemma sortedQ_eq_of_perm {xs ys : List ℚ} (h : xs.Perm ys) :
    sortedQ xs = sortedQ ys :=
  List.eq_of_perm_of_sorted
    ((List.perm_insertionSort _ xs).trans
      (h.trans (List.perm_insertionSort _ ys).symm))
    (List.sorted_insertionSort _ xs)
    (List.sorted_insertionSort _ ys)

lemma percentile_perm (p : ℚ) {xs ys : List ℚ} (h : xs.Perm ys) :
    percentile p xs = percentile p ys :=
  congrArg (percOfSorted p) (sortedQ_eq_of_perm h)

/-- Claim C8: the p95 and p99 computations (`np.percentile` with linear
interpolation) are order-independent — a permutation of the latency samples
yields the same value — and deterministic, so recomputing on the same list
returns the same value. -/
theorem c8_percentile_order_independent (xs ys : List ℚ) (h : xs.Perm ys) :
    percentile 95 ys = percentile 95 xs ∧
    percentile 99 ys = percentile 99 xs ∧
    percentile 95 xs = percentile 95 xs ∧
    percentile 99 xs = percentile 99 xs :=
  ⟨(percentile_perm 95 h).symm, (percentile_perm 99 h).symm, rfl, rfl⟩

/-- Concrete instantiation of `c8_percentile_order_independent` on the list
`[3, 1, 2]` and its shuffle `[2, 3, 1]`. -/
theorem c8_percentile_order_independent_witness :
    ([3, 1, 2] : List ℚ).Perm [2, 3, 1] ∧
    (percentile 95 [2, 3, 1] = percentile 95 [3, 1, 2] ∧
     percentile 99 [2, 3, 1] = percentile 99 [3, 1, 2] ∧
     percentile 95 ([3, 1, 2] : List ℚ) = percentile 95 [3, 1, 2] ∧
     percentile 99 ([3, 1, 2] : List ℚ) = percentile 99 [3, 1, 2]) :=
  ⟨by decide, c8_percentile_order_independent [3, 1, 2] [2, 3, 1] (by decide)⟩

lemma length_filterMap_lt_of_mem_none {lats : List (Option ℚ)}
    (h : none ∈ lats) :
    (lats.filterMap id).length < lats.length := by
  induction lats with
  | nil => simp at h
  | cons a t ih =>
      cases a with
      | none =>
          have hle := List.length_filterMap_le id t
          simp only [List.filterMap_cons, id, List.length_cons]
          omega
      | some x =>
          have ht : none ∈ t := by simpa using h
          have := ih ht
          simp only [List.filterMap_cons, id, List.length_cons]
          omega

/-- Claim C9: the `throughput_qps` stored in a `RunResult` equals the number
of successful samples (non-`None` latencies) divided by the configured run
duration — errored queries are excluded from the numerator and the configured
duration, not elapsed time, is the denominator — so a run containing at least
one error, all of whose task-start timestamps fall inside a sliding window of
the run's width, reports strictly lower per-run throughput than
`calculate_throughput` returns over the same samples. -/
theorem c9_run_throughput (cr cc : Nat) (lats : List (Option ℚ))
    (errs : List (ℚ × String)) (qd : Nat × Nat × Nat) (d : ℚ) (hd : 0 < d)
    (hne : lats.filterMap id ≠ [])
    (st : RegistryState) (now : ℚ)
    (hlen : st.query_timestamps.length = lats.length)
    (hin : ∀ t ∈ st.query_timestamps, now - d < t)
    (herr : none ∈ lats) :
    ∃ rr, collect_run_stats cr cc lats errs qd d = some rr ∧
      rr.throughput_qps = ((lats.filterMap id).length : ℚ) / d ∧
      rr.throughput_qps < (calculate_throughput now d st).2 := by
  simp only [collect_run_stats]
  rw [if_neg hne]
  refine ⟨_, rfl, rfl, ?_⟩
  have hcount : List.countP (fun t => decide (now - d < t)) st.query_timestamps =
      st.query_timestamps.length := by
    rw [List.countP_eq_length]
    intro a ha
    simpa using hin a ha
  have hpos : lats.length ≠ 0 := by
    have := List.length_pos.mpr (List.ne_nil_of_mem herr)
    omega
  simp only [calculate_throughput]
  rw [hcount, hlen, if_pos hpos]
  have hlt : ((lats.filterMap id).length : ℚ) < (lats.length : ℚ) := by
    exact_mod_cast length_filterMap_lt_of_mem_none herr
  rw [div_lt_div_iff_of_pos_right hd]
  exact hlt

/-- Concrete instantiation of `c9_run_throughput`: one success at latency 5,
one error, duration and window 2, both task starts inside the window. -/
theorem c9_run_throughput_witness :
    ((0 : ℚ) < 2 ∧
     ([some 5, none] : List (Option ℚ)).filterMap id ≠ [] ∧
     errorRegistry.query_timestamps.length =
       ([some 5, none] : List (Option ℚ)).length ∧
     (∀ t ∈ errorRegistry.query_timestamps, (2 : ℚ) - 2 < t) ∧
     none ∈ ([some 5, none] : List (Option ℚ))) ∧
    (∃ rr, collect_run_stats 1 2 [some 5, none] [(2, "x")] (2, 0, 0) 2 = some rr ∧
      rr.throughput_qps =
        ((([some 5, none] : List (Option ℚ)).filterMap id).length : ℚ) / 2 ∧
      rr.throughput_qps < (calculate_throughput 2 2 errorRegistry).2) :=
  ⟨⟨by norm_num, by decide, by decide,
    by intro t ht; rw [show errorRegistry.query_timestamps = [1, 2] from rfl] at ht
       fin_cases ht <;> norm_num,
    by decide⟩,
    c9_run_throughput 1 2 [some 5, none] [(2, "x")] (2, 0, 0) 2 (by norm_num)
      (by decide) errorRegistry 2 (by decide)
      (by intro t ht; rw [show errorRegistry.query_timestamps = [1, 2] from rfl] at ht
          fin_cases ht <;> norm_num)
      (by decide)⟩

lemma summary_tput_mean_eq (results : List RunResult) :
    (calculate_summary_metrics results).throughput_summary.mean =
      mean (results.map (·.throughput_qps)) := rfl

lemma summary_tput_stdev_eq (results : List RunResult) :
    (calculate_summary_metrics results).throughput_summary.stdev =
      stdev (results.map (·.throughput_qps)) := rfl

lemma summary_cv_eq (results : List RunResult) :
    (calculate_summary_metrics results).tput_cv_percent =
      (if 1 < (results.map (·.throughput_qps)).length then
        stdev (results.map (·.throughput_qps)) /
          ((mean (results.map (·.throughput_qps)) : ℚ) : ℝ) * 100
      else 0) := rfl

lemma stdev_pair_10_20 : stdev [10, 20] = Real.sqrt 50 := by
  rw [stdev, if_pos (by norm_num)]
  norm_num [sampleVariance, mean]

lemma sqrt_50_gt_705 : (7.05 : ℝ) < Real.sqrt 50 := by
  rw [show (7.05 : ℝ) = Real.sqrt (7.05 ^ 2) from
    (Real.sqrt_sq (by norm_num)).symm]
  exact Real.sqrt_lt_sqrt (by positivity) (by norm_num)

lemma sqrt_50_gt_707 : (7.07 : ℝ) < Real.sqrt 50 := by
  rw [show (7.07 : ℝ) = Real.sqrt (7.07 ^ 2) from
    (Real.sqrt_sq (by norm_num)).symm]
  exact Real.sqrt_lt_sqrt (by positivity) (by norm_num)

lemma sqrt_50_lt_708 : Real.sqrt 50 < (7.08 : ℝ) := by
  rw [show (7.08 : ℝ) = Real.sqrt (7.08 ^ 2) from
    (Real.sqrt_sq (by norm_num)).symm]
  exact Real.sqrt_lt_sqrt (by norm_num) (by norm_num)

/-- Claim C5: the cross-run summary is attached only when more than one run
completed — with a single run the `summary_metrics` field is empty — and for
two runs with per-run throughputs 10 and 20 qps the throughput summary
reports mean 15, sample standard deviation `sqrt 50 ≈ 7.07`, and coefficient
of variation `≈ 47.1%`. -/
theorem c5_summary_gate_and_values :
    summary_metrics_field [runA] = none ∧
    summary_metrics_field [runA, runB] =
      some (calculate_summary_metrics [runA, runB]) ∧
    (calculate_summary_metrics [runA, runB]).throughput_summary.mean = 15 ∧
    (7.07 < (calculate_summary_metrics [runA, runB]).throughput_summary.stdev ∧
      (calculate_summary_metrics [runA, runB]).throughput_summary.stdev < 7.08) ∧
    (47 < (calculate_summary_metrics [runA, runB]).tput_cv_percent ∧
      (calculate_summary_metrics [runA, runB]).tput_cv_percent < 47.2) := by
  have hmap : [runA, runB].map (·.throughput_qps) = [10, 20] := rfl
  have hstdev : (calculate_summary_metrics [runA, runB]).throughput_summary.stdev =
      Real.sqrt 50 := by
    rw [summary_tput_stdev_eq, hmap, stdev_pair_10_20]
  have hmean : (calculate_summary_metrics [runA, runB]).throughput_summary.mean = 15 := by
    rw [summary_tput_mean_eq, hmap]
    norm_num [mean]
  have hcv : (calculate_summary_metrics [runA, runB]).tput_cv_percent =
      Real.sqrt 50 / 15 * 100 := by
    rw [summary_cv_eq, hmap, if_pos (by norm_num), stdev_pair_10_20]
    norm_num [mean]
  refine ⟨?_, ?_, hmean, ⟨?_, ?_⟩, ⟨?_, ?_⟩⟩
  · simp [summary_metrics_field]
  · simp [summary_metrics_field]
  · rw [hstdev]; exact sqrt_50_gt_707
  · rw [hstdev]; exact sqrt_50_lt_708
  · rw [hcv]
    nlinarith [sqrt_50_gt_705]
  · rw [hcv]
    nlinarith [sqrt_50_lt_708]

end ReadTrend
